import Mathlib

/-!
Verification of the gotify-webhook-mqtt plugin (src/plugin.go) against its
specification. The Go code is shallowly embedded: the mutable fields of
MQTTPlugin become an explicit state record, each exported method becomes a
state-transition function, and the external collaborators (MQTT broker,
Gotify hub, JSON parsing) are given as boolean or Option-valued inputs that
say how the collaborator responded. Sections protected by p.mu are modelled
as single transitions, matching the lock being held for the whole section.
Go panics (nil dereference, failing type assertion) appear as explicit
outcome constructors.
-/

namespace GotifyMQTT

/-! ### Go net.ParseIP

The config validator calls net.ParseIP. The functions below are a faithful
translation of the Go standard library parser (net.ParseIP delegating to
net/netip ParseAddr): dotted-decimal IPv4 with exactly four octets in 0..255
and no leading zeros, and the full IPv6 grammar with hex groups, an optional
double colon, and an optional trailing embedded IPv4 address. IP addresses
are represented as their 16-byte form, IPv4 in the 4-in-6 mapped layout, as
net.ParseIP returns them. -/

/-- Main loop of parseIPv4 from Go net/netip, iterating over the characters.
val is the value of the octet being read, digLen the number of its digits so
far, fields the completed octets. A non-zero octet with a leading zero, an
octet above 255, an empty octet, and anything but four octets are errors. -/
def parseIPv4Loop : List Char → Nat → Nat → List Nat → Option (List Nat)
  | [], val, _, fields =>
    if fields.length < 3 then none
    else some (fields ++ [val])
  | c :: rest, val, digLen, fields =>
    if '0' ≤ c ∧ c ≤ '9' then
      if digLen = 1 ∧ val = 0 then none
      else
        let val' := val * 10 + (c.toNat - '0'.toNat)
        if val' > 255 then none
        else parseIPv4Loop rest val' (digLen + 1) fields
    else if c = '.' then
      if digLen = 0 then none
      else if rest = [] then none
      else if fields.length = 3 then none
      else parseIPv4Loop rest 0 0 (fields ++ [val])
    else none

/-- parseIPv4 from Go net/netip, producing the four octets. -/
def parseIPv4 (s : String) : Option (List Nat) :=
  parseIPv4Loop s.toList 0 0 []

/-- Value of a hex digit, with the character classes used by Go netip
parseIPv6. -/
def hexVal (c : Char) : Option Nat :=
  if '0' ≤ c ∧ c ≤ '9' then some (c.toNat - '0'.toNat)
  else if 'a' ≤ c ∧ c ≤ 'f' then some (c.toNat - 'a'.toNat + 10)
  else if 'A' ≤ c ∧ c ≤ 'F' then some (c.toNat - 'A'.toNat + 10)
  else none

/-- Consume the leading run of hex digits of one IPv6 group, returning its
value, the number of digits read, and the rest of the input. A fifth digit or
a value at least 2^16 is an error, as in the Go loop. -/
def takeHex : List Char → Nat → Nat → Option (Nat × Nat × List Char)
  | [], acc, off => some (acc, off, [])
  | c :: rest, acc, off =>
    match hexVal c with
    | none => some (acc, off, c :: rest)
    | some d =>
      if off + 1 > 4 then none
      else
        let acc' := acc * 16 + d
        if acc' > 65535 then none
        else takeHex rest acc' (off + 1)

/-- Post-loop processing of Go netip parseIPv6: the whole input must have been
consumed; if fewer than 16 bytes were produced a recorded double colon expands
to the missing zero bytes, and if all 16 bytes were produced a double colon is
an error. -/
def finishIPv6 (s : List Char) (ip : List Nat) (ellipsis : Option Nat) :
    Option (List Nat) :=
  if s ≠ [] then none
  else if ip.length < 16 then
    match ellipsis with
    | none => none
    | some e => some (ip.take e ++ List.replicate (16 - ip.length) 0 ++ ip.drop e)
  else
    match ellipsis with
    | some _ => none
    | none => some ip

/-- Group-parsing loop of Go netip parseIPv6. Each round reads one hex group
(two bytes) or a trailing embedded IPv4 address (four bytes, only in the last
four positions unless a double colon was seen); the loop in Go stops once 16
bytes are filled. Every round adds at least two bytes, so fuel 9 is never
exhausted before that stop condition fires. -/
def parseIPv6Loop : Nat → List Char → List Nat → Option Nat → Option (List Nat)
  | 0, s, ip, ellipsis => finishIPv6 s ip ellipsis
  | fuel + 1, s, ip, ellipsis =>
    if ip.length ≥ 16 then finishIPv6 s ip ellipsis
    else
      match takeHex s 0 0 with
      | none => none
      | some (acc, off, rest) =>
        if off = 0 then none
        else if rest.head? = some '.' then
          if ellipsis = none ∧ ip.length ≠ 12 then none
          else if ip.length + 4 > 16 then none
          else
            match parseIPv4Loop s 0 0 [] with
            | none => none
            | some oct => finishIPv6 [] (ip ++ oct) ellipsis
        else
          let ip' := ip ++ [acc / 256, acc % 256]
          match rest with
          | [] => finishIPv6 [] ip' ellipsis
          | c :: rest2 =>
            if c ≠ ':' then none
            else
              match rest2 with
              | [] => none
              | ':' :: rest3 =>
                if ellipsis ≠ none then none
                else if rest3 = [] then finishIPv6 [] ip' (some ip'.length)
                else parseIPv6Loop fuel rest3 ip' (some ip'.length)
              | _ => parseIPv6Loop fuel rest2 ip' ellipsis

/-- parseIPv6 from Go net/netip. A zone suffix after a percent sign is folded
into failure here, because net.ParseIP rejects every address carrying a zone
and parseIPv6 rejects an empty one. -/
def parseIPv6 (str : String) : Option (List Nat) :=
  let s := str.toList
  if s.contains '%' then none
  else
    match s with
    | ':' :: ':' :: s2 =>
      if s2 = [] then some (List.replicate 16 0)
      else parseIPv6Loop 9 s2 [] (some 0)
    | _ => parseIPv6Loop 9 s [] none

/-- Sixteen-byte layout header of an IPv4 address inside net.IP. -/
def v4InV6Header : List Nat := [0, 0, 0, 0, 0, 0, 0, 0, 0, 0, 255, 255]

/-- Dispatch of Go netip ParseAddr: the first dot, colon, or percent sign of
the input selects the IPv4 grammar, the IPv6 grammar, or an error; an input
with none of the three is an error. -/
def dispatchIP : List Char → String → Option (List Nat)
  | [], _ => none
  | c :: rest, s =>
    if c = '.' then (parseIPv4 s).map (fun oct => v4InV6Header ++ oct)
    else if c = ':' then parseIPv6 s
    else if c = '%' then none
    else dispatchIP rest s

/-- net.ParseIP from the Go standard library, as the 16-byte address or none. -/
def goParseIP (s : String) : Option (List Nat) :=
  dispatchIP s.toList s

/-! ### Data model of the plugin

State record for the mutable fields of MQTTPlugin, with the structures it
stores. The mqttClient field of type mqtt.Client is modelled by what the
plugin observes of it: whether the handle is nil, and otherwise what
IsConnected reports. -/

/-- MQTTConfig from plugin.go. Port and KeepAlive are Go int fields, so they
are embedded as integers; QoS is a byte. -/
structure MQTTConfig where
  ip : String
  port : Int
  username : String
  password : String
  qos : Nat
  topic : String
  keepAlive : Int
  retain : Bool
deriving DecidableEq

/-- Message body bound from the webhook request, mirroring plugin.Message of
the gotify plugin-api; the Extras map is never read by this plugin and is
omitted. -/
structure Message where
  message : String
  title : String
  priority : Int
deriving DecidableEq

/-- Observable state of the mqttClient field: nil (no client created yet), or
a client whose IsConnected reports false or true. -/
inductive ClientState
  | nil
  | disconnected
  | connected
deriving DecidableEq

/-- Mutable fields of MQTTPlugin. The mutex mu is not part of the state: each
locked section below is one atomic transition. -/
structure PluginState where
  config : Option MQTTConfig
  mqttClient : ClientState
  lastError : Option String
  messageQueue : List Message
  basePath : String
deriving DecidableEq

/-- Zero value built by NewGotifyPluginInstance: nil config, nil client, no
error, empty queue. -/
def initialState : PluginState :=
  { config := none, mqttClient := .nil, lastError := none,
    messageQueue := [], basePath := "" }

/-- One invocation of mqttClient.Publish, recording the arguments passed. -/
structure PublishCall where
  topic : String
  qos : Nat
  retain : Bool
  payload : String
deriving DecidableEq

/-- forwardToMQTT from plugin.go: publishes the message text on the configured
topic with the configured QoS and retain flag and waits for the token. -/
def forwardToMQTT (cfg : MQTTConfig) (msg : Message) : PublishCall :=
  { topic := cfg.topic, qos := cfg.qos, retain := cfg.retain,
    payload := msg.message }

/-! ### Operations -/

/-- How a call to Enable ended: a panic from dereferencing a nil p.config, an
error return from a failed connect, or a nil return. -/
inductive EnableOutcome
  | panicked
  | failed (err : String)
  | ok
deriving DecidableEq

/-- Enable from plugin.go. The broker options are built from p.config (so a
nil config panics), a fresh client is stored in p.mqttClient, and Connect is
attempted; connectOk says whether the broker accepted the connection and
errDetail is the transport error text otherwise. On failure the formatted
error is stored in lastError and returned. On success the pending queue is
drained in order through forwardToMQTT under the lock and then set to nil;
lastError is not assigned on this path. Returns the new state, the publish
calls made, and the outcome. -/
def enable (s : PluginState) (connectOk : Bool) (errDetail : String) :
    PluginState × List PublishCall × EnableOutcome :=
  match s.config with
  | none => (s, [], .panicked)
  | some cfg =>
    if connectOk then
      ({ s with mqttClient := .connected, messageQueue := [] },
       s.messageQueue.map (forwardToMQTT cfg), .ok)
    else
      let e := "Failed to connect to MQTT Broker: " ++ errDetail
      ({ s with mqttClient := .disconnected, lastError := some e },
       [], .failed e)

/-- How a call to Disable ended: a panic from calling Disconnect on a nil
client interface, or the unconditional nil return. -/
inductive DisableOutcome
  | panicked
  | ok
deriving DecidableEq

/-- Disable from plugin.go: calls Disconnect with a 250ms grace period on the
stored client (a nil interface panics) and returns nil. The queue, the config
and lastError are untouched. -/
def disable (s : PluginState) : PluginState × DisableOutcome :=
  match s.mqttClient with
  | .nil => (s, .panicked)
  | _ => ({ s with mqttClient := .disconnected }, .ok)

/-- Response of the POST message handler registered by RegisterWebhook. -/
inductive WebhookResult
  | badRequest
  | hubError
  | panicked
  | okPublished (call : PublishCall)
  | okQueued
deriving DecidableEq

/-- HTTP status code the handler writes; none when it panicked instead of
responding. -/
def WebhookResult.status : WebhookResult → Option Nat
  | .badRequest => some 400
  | .hubError => some 500
  | .panicked => none
  | .okPublished _ => some 200
  | .okQueued => some 200

/-- Webhook handler installed by RegisterWebhook in plugin.go. parsed is the
result of BindJSON on the request body, hubOk whether msgHandler.SendMessage
succeeded. A parse failure answers 400, a hub failure answers 500, and in
both cases nothing else happens. Otherwise the section between p.mu.Lock and
p.mu.Unlock — the nil-and-connected check on the client plus the chosen
action — is one transition here: a connected client publishes immediately
(forwardToMQTT reads p.config, so a nil config would panic), anything else
appends the message to the queue; either way the handler answers 200. The
short-circuit nil check means a nil client takes the queue branch without
being dereferenced. -/
def handleMessage (s : PluginState) (parsed : Option Message) (hubOk : Bool) :
    PluginState × WebhookResult :=
  match parsed with
  | none => (s, .badRequest)
  | some msg =>
    if !hubOk then (s, .hubError)
    else if s.mqttClient = .connected then
      match s.config with
      | none => (s, .panicked)
      | some cfg => (s, .okPublished (forwardToMQTT cfg msg))
    else
      ({ s with messageQueue := s.messageQueue ++ [msg] }, .okQueued)

/-- Value arriving through the conf parameter of ValidateAndSetConfig: the
host passes a pointer to MQTTConfig, but the parameter admits any type. -/
inductive ConfValue
  | mqttConf (c : MQTTConfig)
  | otherType
deriving DecidableEq

/-- How a call to ValidateAndSetConfig ended: a panic from the failing type
assertion, an error return, or acceptance. -/
inductive ConfigOutcome
  | panicked
  | rejected (err : String)
  | accepted
deriving DecidableEq

/-- ValidateAndSetConfig from plugin.go: asserts the dynamic type of conf (a
wrong type panics), then rejects an IP that net.ParseIP cannot parse, a port
outside 1..65535, and a negative KeepAlive, in that order, returning before
p.config is assigned; otherwise installs the new config wholesale. -/
def validateAndSetConfig (s : PluginState) (conf : ConfValue) :
    PluginState × ConfigOutcome :=
  match conf with
  | .otherType => (s, .panicked)
  | .mqttConf c =>
    if goParseIP c.ip = none then
      (s, .rejected ("invalid IP address: " ++ c.ip))
    else if c.port < 1 ∨ c.port > 65535 then
      (s, .rejected ("port out of range: " ++ toString c.port))
    else if c.keepAlive < 0 then
      (s, .rejected ("invalid KeepAlive value: " ++ toString c.keepAlive))
    else
      ({ s with config := some c }, .accepted)

/-- GetDisplay from plugin.go: the usage line, preceded by the last connection
error when one is stored. -/
def getDisplay (s : PluginState) (location : String) : String :=
  match s.lastError with
  | some e =>
    "Error: " ++ e ++ "\n\nSend messages to " ++ location ++ s.basePath
      ++ "message to forward them to MQTT."
  | none =>
    "Send messages to " ++ location ++ s.basePath
      ++ "message to forward them to MQTT."

/-! ### Event sequences -/

/-- Lifecycle calls made by the host: Enable together with the environment's
connect outcome, and Disable. -/
inductive LifeEvent
  | enableEv (connectOk : Bool) (errDetail : String)
  | disableEv
deriving DecidableEq

/-- Apply one lifecycle event, keeping the publish calls it makes. -/
def lifeStep (s : PluginState) : LifeEvent → PluginState × List PublishCall
  | .enableEv ok err => ((enable s ok err).1, (enable s ok err).2.1)
  | .disableEv => ((disable s).1, [])

/-- Run a sequence of lifecycle events, concatenating all publish calls. -/
def runLife (s : PluginState) : List LifeEvent → PluginState × List PublishCall
  | [] => (s, [])
  | e :: evs =>
    ((runLife (lifeStep s e).1 evs).1,
     (lifeStep s e).2 ++ (runLife (lifeStep s e).1 evs).2)

/-- Whether the event list contains an Enable whose connect succeeds. -/
def hasSuccessfulEnable : List LifeEvent → Bool
  | [] => false
  | .enableEv true _ :: _ => true
  | .enableEv false _ :: evs => hasSuccessfulEnable evs
  | .disableEv :: evs => hasSuccessfulEnable evs

/-- Feed a list of messages through the webhook handler, each one parsing and
accepted by the hub, keeping the state. -/
def feedMessages (s : PluginState) : List Message → PluginState
  | [] => s
  | m :: ms => feedMessages (handleMessage s (some m) true).1 ms

/-! ### Sample values used by the witnesses -/

/-- Default configuration of the plugin (DefaultConfig in plugin.go). -/
def sampleConfig : MQTTConfig :=
  { ip := "127.0.0.1", port := 1883, username := "", password := "",
    qos := 0, topic := "gotify/messages", keepAlive := 60, retain := false }

/-- Numbered sample message. -/
def sampleMsg (i : Nat) : Message :=
  { message := "m" ++ toString i, title := "t", priority := 0 }

/-- Configured plugin whose client exists but is disconnected: the state after
one failed Enable, with lastError dropped. -/
def disconnectedState : PluginState :=
  { config := some sampleConfig, mqttClient := .disconnected,
    lastError := none, messageQueue := [], basePath := "/plugin/1/custom/u/" }

/-- Configured plugin whose client reports connected. -/
def connectedState : PluginState :=
  { config := some sampleConfig, mqttClient := .connected,
    lastError := none, messageQueue := [], basePath := "/plugin/1/custom/u/" }

/-- Disconnected plugin with three messages waiting in the queue. -/
def queuedState : PluginState :=
  { disconnectedState with
      messageQueue := [sampleMsg 1, sampleMsg 2, sampleMsg 3] }

/-- Lifecycle sequence with two successful Enables around a Disable. -/
def sampleLifeEvents : List LifeEvent :=
  [.disableEv, .enableEv false "broker down", .enableEv true "",
   .disableEv, .enableEv true ""]

/-- Configuration the spec lists as rejected for its IP. -/
def badIPConf : MQTTConfig :=
  { sampleConfig with ip := "999.999.999.999" }

/-- Configuration the spec lists as rejected for its port. -/
def badPortConf : MQTTConfig :=
  { sampleConfig with
      ip := "10.0.0.5", port := 70000 }

/-- Configuration the spec lists as rejected for its keep-alive. -/
def badKeepAliveConf : MQTTConfig :=
  { sampleConfig with
      ip := "10.0.0.5", keepAlive := -1 }

/-- Configuration the spec lists as accepted. -/
def goodConf : MQTTConfig :=
  { sampleConfig with ip := "10.0.0.5" }

/-! ### Helper lemmas -/

/-- Messages that arrive while the client is nil or disconnected land in the
queue, in arrival order after what was already there; nothing else changes. -/
theorem feedMessages_disconnected (ms : List Message) (s : PluginState)
    (h : s.mqttClient ≠ .connected) :
    feedMessages s ms = { s with messageQueue := s.messageQueue ++ ms } := by
  induction ms generalizing s with
  | nil => simp [feedMessages]
  | cons m ms ih =>
    have hstep : (handleMessage s (some m) true).1
        = { s with messageQueue := s.messageQueue ++ [m] } := by
      simp [handleMessage, h]
    rw [feedMessages, hstep, ih _ (by simpa using h)]
    simp

/-- Enable on a configured plugin whose connect succeeds: the client reports
connected, the queue is drained in order and cleared, everything else stays. -/
theorem enable_success_eq (s : PluginState) (cfg : MQTTConfig) (d : String)
    (hconf : s.config = some cfg) :
    enable s true d =
      ({ s with mqttClient := .connected, messageQueue := [] },
       s.messageQueue.map (forwardToMQTT cfg), .ok) := by
  simp [enable, hconf]

/-- Enable on a configured plugin whose connect fails: the formatted error is
stored and returned, the fresh client is disconnected, the queue stays. -/
theorem enable_failure_eq (s : PluginState) (cfg : MQTTConfig) (d : String)
    (hconf : s.config = some cfg) :
    enable s false d =
      ({ s with
          mqttClient := .disconnected,
          lastError := some ("Failed to connect to MQTT Broker: " ++ d) },
       [], .failed ("Failed to connect to MQTT Broker: " ++ d)) := by
  simp [enable, hconf]

/-- Disable on a plugin that has a client handle: it disconnects the client
and changes nothing else. -/
theorem disable_eq_of_client (s : PluginState) (h : s.mqttClient ≠ .nil) :
    disable s = ({ s with mqttClient := .disconnected }, .ok) := by
  cases hc : s.mqttClient <;> simp_all [disable]

/-! ### Claims -/

/-- C1: starting from an empty queue while the client is not connected, a
sequence of accepted inbound messages leaves the queue holding exactly those
messages in arrival order, and an Enable whose connect succeeds publishes
them through the client in that same order, one publish per queued message,
and leaves the queue empty. -/
theorem queued_messages_drained_in_order
    (s : PluginState) (cfg : MQTTConfig) (ms : List Message) (d : String)
    (hconf : s.config = some cfg)
    (hconn : s.mqttClient ≠ .connected)
    (hq : s.messageQueue = []) :
    (feedMessages s ms).messageQueue = ms ∧
    enable (feedMessages s ms) true d =
      ({ feedMessages s ms with mqttClient := .connected, messageQueue := [] },
       ms.map (forwardToMQTT cfg), .ok) := by
  rw [feedMessages_disconnected ms s hconn]
  refine ⟨by simp [hq], ?_⟩
  simp [enable, hconf, hq]

/-- Witness for C1 at three concrete messages. -/
theorem queued_messages_drained_in_order_witness :
    (feedMessages disconnectedState
        [sampleMsg 1, sampleMsg 2, sampleMsg 3]).messageQueue
      = [sampleMsg 1, sampleMsg 2, sampleMsg 3] ∧
    enable (feedMessages disconnectedState
        [sampleMsg 1, sampleMsg 2, sampleMsg 3]) true "" =
      ({ feedMessages disconnectedState
            [sampleMsg 1, sampleMsg 2, sampleMsg 3] with
          mqttClient := .connected, messageQueue := [] },
       [sampleMsg 1, sampleMsg 2, sampleMsg 3].map (forwardToMQTT sampleConfig),
       .ok) :=
  queued_messages_drained_in_order disconnectedState sampleConfig
    [sampleMsg 1, sampleMsg 2, sampleMsg 3] "" rfl (by decide) rfl

/-- C2: for a message that parses and that the hub accepts, the handler takes
exactly one of two actions inside the single locked section: with a connected
client it publishes the message immediately and leaves the queue (and all
other state) unchanged, and with any other client it appends the message to
the queue and publishes nothing. -/
theorem per_message_publish_or_queue
    (s : PluginState) (cfg : MQTTConfig) (msg : Message)
    (hconf : s.config = some cfg) :
    (s.mqttClient = .connected →
      handleMessage s (some msg) true
        = (s, .okPublished (forwardToMQTT cfg msg))) ∧
    (s.mqttClient ≠ .connected →
      handleMessage s (some msg) true
        = ({ s with messageQueue := s.messageQueue ++ [msg] }, .okQueued)) := by
  constructor
  · intro h; simp [handleMessage, h, hconf]
  · intro h; simp [handleMessage, h]

/-- Witness for C2: with a connected client the sample message is published
as-is and the state is untouched. -/
theorem per_message_publish_or_queue_witness :
    handleMessage connectedState (some (sampleMsg 1)) true
      = (connectedState, .okPublished (forwardToMQTT sampleConfig (sampleMsg 1))) :=
  (per_message_publish_or_queue connectedState sampleConfig (sampleMsg 1) rfl).1 rfl

/-- C3: when hub delivery fails, the handler answers 500 and returns at once:
the state — pending queue included — is exactly what it was, and no publish
call is made. -/
theorem hub_failure_leaves_state_unchanged (s : PluginState) (msg : Message) :
    handleMessage s (some msg) false = (s, .hubError) ∧
    WebhookResult.status .hubError = some 500 :=
  ⟨rfl, rfl⟩

/-- C4: over any sequence of Disable and Enable calls with no new inbound
messages, the publish calls made are exactly one pass over the initial queue
in order when some Enable connects successfully, and none at all otherwise;
the queue ends empty in the first case and untouched in the second. A drained
queue is reset to nil, so no later drain replays a message: each enqueue is
published at most once. -/
theorem drain_publishes_each_enqueue_at_most_once
    (evs : List LifeEvent) (s : PluginState) (cfg : MQTTConfig)
    (hconf : s.config = some cfg) (hcl : s.mqttClient ≠ .nil) :
    (runLife s evs).2 =
      (if hasSuccessfulEnable evs then s.messageQueue.map (forwardToMQTT cfg)
       else []) ∧
    (runLife s evs).1.messageQueue =
      (if hasSuccessfulEnable evs then [] else s.messageQueue) := by
  induction evs generalizing s with
  | nil => simp [runLife, hasSuccessfulEnable]
  | cons e evs ih =>
    cases e with
    | enableEv ok err =>
      cases ok with
      | true =>
        obtain ⟨ih1, ih2⟩ :=
          ih { s with mqttClient := .connected, messageQueue := [] } hconf
            (by simp)
        simp only [runLife, lifeStep, enable_success_eq s cfg err hconf,
          hasSuccessfulEnable] at ih1 ih2 ⊢
        simp at ih1 ih2
        simp [ih1, ih2]
      | false =>
        obtain ⟨ih1, ih2⟩ :=
          ih { s with
                mqttClient := .disconnected,
                lastError := some ("Failed to connect to MQTT Broker: " ++ err) }
            hconf (by simp)
        simp only [runLife, lifeStep, enable_failure_eq s cfg err hconf,
          hasSuccessfulEnable] at ih1 ih2 ⊢
        simp at ih1 ih2 ⊢
        exact ⟨ih1, ih2⟩
    | disableEv =>
      obtain ⟨ih1, ih2⟩ :=
        ih { s with mqttClient := .disconnected } hconf (by simp)
      simp only [runLife, lifeStep, disable_eq_of_client s hcl,
        hasSuccessfulEnable] at ih1 ih2 ⊢
      simp at ih1 ih2 ⊢
      exact ⟨ih1, ih2⟩

/-- Witness for C4: three queued messages survive a Disable, a failed Enable
and a Disable, are published once by the successful Enable in between, and
are not replayed by the second successful Enable. -/
theorem drain_publishes_each_enqueue_at_most_once_witness :
    (runLife queuedState sampleLifeEvents).2 =
      (if hasSuccessfulEnable sampleLifeEvents then
        queuedState.messageQueue.map (forwardToMQTT sampleConfig)
       else []) ∧
    (runLife queuedState sampleLifeEvents).1.messageQueue =
      (if hasSuccessfulEnable sampleLifeEvents then []
       else queuedState.messageQueue) :=
  drain_publishes_each_enqueue_at_most_once sampleLifeEvents queuedState
    sampleConfig rfl (by decide)

/-- C5: ValidateAndSetConfig accepts exactly the configurations whose IP
parses under net.ParseIP, whose port lies in 1..65535 and whose keep-alive is
nonnegative, installing the new configuration wholesale; every other
configuration is rejected with an error before the config field is assigned,
so the previously installed configuration stays. The four sample
configurations of the spec behave accordingly. -/
theorem validateAndSetConfig_spec (s : PluginState) (c : MQTTConfig) :
    ((goParseIP c.ip ≠ none ∧ 1 ≤ c.port ∧ c.port ≤ 65535 ∧ 0 ≤ c.keepAlive) →
      validateAndSetConfig s (.mqttConf c)
        = ({ s with config := some c }, .accepted)) ∧
    ((goParseIP c.ip = none ∨ c.port < 1 ∨ 65535 < c.port ∨ c.keepAlive < 0) →
      (validateAndSetConfig s (.mqttConf c)).1 = s ∧
      ∃ e, (validateAndSetConfig s (.mqttConf c)).2 = .rejected e) ∧
    (validateAndSetConfig s (.mqttConf badIPConf)).2
      = .rejected "invalid IP address: 999.999.999.999" ∧
    (validateAndSetConfig s (.mqttConf badPortConf)).2
      = .rejected "port out of range: 70000" ∧
    (validateAndSetConfig s (.mqttConf badKeepAliveConf)).2
      = .rejected "invalid KeepAlive value: -1" ∧
    validateAndSetConfig s (.mqttConf goodConf)
      = ({ s with config := some goodConf }, .accepted) := by
  refine ⟨?_, ?_, ?_, ?_, ?_, ?_⟩
  · rintro ⟨h1, h2, h3, h4⟩
    simp only [validateAndSetConfig]
    rw [if_neg h1, if_neg (by omega), if_neg (by omega)]
  · intro h
    simp only [validateAndSetConfig]
    split_ifs with h1 h2 h3
    · exact ⟨rfl, _, rfl⟩
    · exact ⟨rfl, _, rfl⟩
    · exact ⟨rfl, _, rfl⟩
    · exfalso
      rcases h with h | h | h | h
      · exact h1 h
      · exact h2 (Or.inl h)
      · exact h2 (Or.inr h)
      · exact h3 h
  · have h1 : goParseIP badIPConf.ip = none := by decide
    have h2 : ("invalid IP address: " ++ badIPConf.ip)
        = "invalid IP address: 999.999.999.999" := by decide
    simp [validateAndSetConfig, h1, h2]
  · have h1 : goParseIP badPortConf.ip ≠ none := by decide
    have h2 : (badPortConf.port < 1 ∨ badPortConf.port > 65535) := by decide
    have h3 : ("port out of range: " ++ toString badPortConf.port)
        = "port out of range: 70000" := by decide
    simp [validateAndSetConfig, h1, h2, h3]
  · have h1 : goParseIP badKeepAliveConf.ip ≠ none := by decide
    have h2 : ¬(badKeepAliveConf.port < 1 ∨ badKeepAliveConf.port > 65535) := by
      decide
    have h3 : badKeepAliveConf.keepAlive < 0 := by decide
    have h4 : ("invalid KeepAlive value: " ++ toString badKeepAliveConf.keepAlive)
        = "invalid KeepAlive value: -1" := by decide
    simp [validateAndSetConfig, h1, h2, h3, h4]
  · have h1 : goParseIP goodConf.ip ≠ none := by decide
    have h2 : ¬(goodConf.port < 1 ∨ goodConf.port > 65535) := by decide
    have h3 : ¬(goodConf.keepAlive < 0) := by decide
    simp [validateAndSetConfig, h1, h2, h3]

/-- Witness for C5: the accepted sample configuration is installed on the
fresh plugin. -/
theorem validateAndSetConfig_spec_witness :
    validateAndSetConfig initialState (.mqttConf goodConf)
      = ({ initialState with config := some goodConf }, .accepted) :=
  (validateAndSetConfig_spec initialState goodConf).1 (by decide)

/-- C6, behavior of the code at the failing input: Enable assigns lastError
only on its failure path, so after a failed Enable followed by a successful
one the old error text is still stored instead of being cleared. -/
theorem lastError_survives_successful_enable :
    ((enable (enable disconnectedState false "broker unreachable").1
        true "").1).lastError
      = some "Failed to connect to MQTT Broker: broker unreachable" ∧
    ((enable (enable disconnectedState false "broker unreachable").1
        true "").1).lastError ≠ none := by
  decide

/-- C7: an Enable whose connect fails stores a nonempty formatted error in
lastError and reports the failure only through its return value; the plugin
keeps running with a disconnected client, and a later accepted inbound
message is appended to the queue with a 200 response instead of being
published. -/
theorem enable_failure_sets_error_and_queues
    (s : PluginState) (cfg : MQTTConfig) (d : String) (msg : Message)
    (hconf : s.config = some cfg) :
    ∃ e, e ≠ "" ∧
      enable s false d
        = ({ s with
              mqttClient := .disconnected, lastError := some e },
           [], .failed e) ∧
      handleMessage
          { s with
              mqttClient := .disconnected, lastError := some e }
          (some msg) true
        = ({ s with
              mqttClient := .disconnected, lastError := some e,
              messageQueue := s.messageQueue ++ [msg] }, .okQueued) := by
  refine ⟨"Failed to connect to MQTT Broker: " ++ d, ?_,
    enable_failure_eq s cfg d hconf, ?_⟩
  · intro h
    have := congrArg String.data h
    simp [String.data_append] at this
  · simp [handleMessage]

/-- Witness for C7 at a concrete failed Enable and one later message. -/
theorem enable_failure_sets_error_and_queues_witness :
    ∃ e, e ≠ "" ∧
      enable disconnectedState false "connection refused"
        = ({ disconnectedState with
              mqttClient := .disconnected, lastError := some e },
           [], .failed e) ∧
      handleMessage
          { disconnectedState with
              mqttClient := .disconnected, lastError := some e }
          (some (sampleMsg 4)) true
        = ({ disconnectedState with
              mqttClient := .disconnected, lastError := some e,
              messageQueue := disconnectedState.messageQueue ++ [sampleMsg 4] },
           .okQueued) :=
  enable_failure_sets_error_and_queues disconnectedState sampleConfig
    "connection refused" (sampleMsg 4) rfl

/-- C8: Disable only disconnects the client: the queue is exactly what it
was, Disable reports no error, and a later Enable whose connect succeeds
publishes the queued messages in their original order and empties the
queue. -/
theorem disable_keeps_queue_for_next_drain
    (s : PluginState) (cfg : MQTTConfig) (d : String)
    (hconf : s.config = some cfg) (hcl : s.mqttClient ≠ .nil) :
    (disable s).1.messageQueue = s.messageQueue ∧
    (disable s).2 = .ok ∧
    enable (disable s).1 true d
      = ({ (disable s).1 with mqttClient := .connected, messageQueue := [] },
         s.messageQueue.map (forwardToMQTT cfg), .ok) := by
  rw [disable_eq_of_client s hcl]
  exact ⟨rfl, rfl, enable_success_eq _ cfg d hconf⟩

/-- Witness for C8: Disable with three queued messages, then a successful
Enable publishes all three in order and leaves the queue empty. -/
theorem disable_keeps_queue_for_next_drain_witness :
    (disable queuedState).1.messageQueue = queuedState.messageQueue ∧
    (disable queuedState).2 = .ok ∧
    enable (disable queuedState).1 true ""
      = ({ (disable queuedState).1 with
            mqttClient := .connected, messageQueue := [] },
         queuedState.messageQueue.map (forwardToMQTT sampleConfig), .ok) :=
  disable_keeps_queue_for_next_drain queuedState sampleConfig "" rfl (by decide)

/-- C9, behavior of the code at the failing inputs: ValidateAndSetConfig
performs an unchecked type assertion, so a conf value of any other dynamic
type panics instead of returning an error, and Disable calls Disconnect on
the stored client without a nil check, so calling it before any Enable
panics as well. -/
theorem core_operations_abort_on_bad_input :
    (validateAndSetConfig initialState .otherType).2 = .panicked ∧
    (disable initialState).2 = .panicked :=
  ⟨rfl, rfl⟩

/-- C10: before any Enable the client field is nil; the short-circuit check
in the handler then takes the queue branch without dereferencing the client,
so the message is appended to the queue and the request answered 200. -/
theorem nil_client_queues_message
    (s : PluginState) (msg : Message) (h : s.mqttClient = .nil) :
    handleMessage s (some msg) true
      = ({ s with messageQueue := s.messageQueue ++ [msg] }, .okQueued) ∧
    WebhookResult.status .okQueued = some 200 := by
  refine ⟨?_, rfl⟩
  simp [handleMessage, h]

/-- Witness for C10 on the freshly created plugin. -/
theorem nil_client_queues_message_witness :
    handleMessage initialState (some (sampleMsg 1)) true
      = ({ initialState with
            messageQueue := initialState.messageQueue ++ [sampleMsg 1] },
         .okQueued) ∧
    WebhookResult.status .okQueued = some 200 :=
  nil_client_queues_message initialState (sampleMsg 1) rfl

end GotifyMQTT
